import Mathlib

/-!
# Verification of the PostgreSQL Data Transfer Service (DTS) core

A shallow embedding, in Lean 4, of the parts of the DTS migration
orchestrator that the specification's claims talk about: the task state
vocabulary and progress anchors, the HTTP switchover handler, the metadata
store's progress update, the replication-resource manager, the validating
stage's retry loop, the WAL subscriber's acknowledgement path, the pgoutput
decoder and tuple handler, and the task manager's teardown.

Go strings stay strings, Go maps become association lists with overwrite
semantics, Go `error` returns become `Except String`, and the outcomes of
external collaborators (the pglogrepl parser, the database driver) are
inputs to the embedded functions.
-/

namespace DTS

/-! ## Task states and progress anchors

From `internal/model/utils.go` the task state is a plain string; the state
machine family used by the service layer is `init, creating_tables,
migrating_data, syncing_wal, stopping_writes, validating, finalizing,
completed, failed, paused`. -/

/-- Embeds `progressForState` from `internal/service/task_manager.go`:
the coarse-grained progress anchor written after each state transition.
The Go `switch` has a `default: return 0` branch. -/
def progressForState (s : String) : Int :=
  if s = "init" then 5
  else if s = "creating_tables" then 20
  else if s = "migrating_data" then 60
  else if s = "syncing_wal" then 75
  else if s = "stopping_writes" then 85
  else if s = "validating" then 95
  else if s = "finalizing" then 99
  else if s = "completed" then 100
  else 0

/-- Embeds `mapStateToStage` from the task HTTP handler
(`TaskHandler`, `src/unnamed/part_024`): mapping from the internal task
state string to the API `stage` field. -/
def mapStateToStage (state : String) : String :=
  if state = "init" ∨ state = "creating_tables" ∨ state = "migrating_data" then "syncing"
  else if state = "syncing_wal" then "syncing"
  else if state = "stopping_writes" then "switching"
  else if state = "validating" ∨ state = "finalizing" then "switching"
  else if state = "completed" then "finished"
  else if state = "failed" then "none"
  else if state = "paused" then "waiting"
  else "none"

/-- Embeds the `Next()` methods of the concrete states in
`internal/state/`: `init → creating_tables → migrating_data → syncing_wal →
stopping_writes → validating → completed` (the retry-loop version of
`validating.go` returns `NewCompletedState`), `finalizing → completed`,
and `nil` for the terminal states and `paused`. -/
def nextState (s : String) : Option String :=
  if s = "init" then some "creating_tables"
  else if s = "creating_tables" then some "migrating_data"
  else if s = "migrating_data" then some "syncing_wal"
  else if s = "syncing_wal" then some "stopping_writes"
  else if s = "stopping_writes" then some "validating"
  else if s = "validating" then some "completed"
  else if s = "finalizing" then some "completed"
  else none

/-! ## Metadata store: the persisted task row and `UpdateProgress`

From `internal/repository/migration.go`. -/

/-- The persisted fields of `migration_tasks` that the claims mention. -/
structure TaskRow where
  state : String
  progress : Int
deriving DecidableEq

/-- Embeds `MigrationRepository.UpdateProgress`
(`internal/repository/migration.go`): a single unconditional
`UPDATE migration_tasks SET progress = ?` — there is no comparison with the
currently persisted value. -/
def updateProgress (r : TaskRow) (p : Int) : TaskRow :=
  { r with progress := p }

/-! ## Switchover: service and HTTP handler

From `MigrationService.TriggerSwitchover` in
`internal/service/task_manager.go` and `TaskHandler.SwitchTask` in
`src/unnamed/part_024`. -/

/-- An HTTP response as the handler builds it: status code plus the
`{state, message}` JSON body. -/
structure ApiResponse where
  httpStatus : Nat
  state : String
  message : String
deriving DecidableEq

/-- Embeds `MigrationService.TriggerSwitchover`: only a task in
`syncing_wal` may switch, and it is moved to `stopping_writes`; any other
state yields an error naming the current state. -/
def triggerSwitchover (taskState : String) : Except String String :=
  if taskState = "syncing_wal" then .ok "stopping_writes"
  else .error ("task is not in a state that allows switchover: " ++ taskState)

/-- Embeds `TaskHandler.SwitchTask` (`src/unnamed/part_024`): input is the
stored task state (`none` when the id is unknown); output is the HTTP
response and the task state after the call. -/
def switchTask (task : Option String) : ApiResponse × Option String :=
  match task with
  | none =>
      (⟨404, "ERROR", "Task not found: record not found"⟩, none)
  | some st =>
      if st = "syncing_wal" then
        match triggerSwitchover st with
        | .ok st2 =>
            (⟨200, "OK", "Switchover triggered successfully"⟩, some st2)
        | .error e =>
            (⟨500, "ERROR", "Failed to trigger switchover: " ++ e⟩, some st)
      else if st = "stopping_writes" ∨ st = "validating" ∨ st = "finalizing" then
        (⟨200, "OK", "Switchover is already in progress"⟩, some st)
      else
        (⟨400, "ERROR",
          "Task is not in a state that allows switchover. Current state: " ++ st⟩,
         some st)

/-- `mentions msg sub` says the string `sub` occurs inside `msg` (the
handler's error message "mentions the task's current state"). -/
def mentions (msg sub : String) : Prop :=
  sub.data <:+: msg.data

/-! ## Replication-resource manager

From `internal/replication/slot.go`. The manager methods issue SQL against
the source; `SourceEnv` models the source server's replication catalog and
the semantics PostgreSQL gives to the exact statements the code issues:
`SELECT pg_create_logical_replication_slot(...)` and
`CREATE PUBLICATION ...` fail when the object already exists,
`SELECT pg_drop_replication_slot(...)` fails when the slot does not exist,
and `DROP PUBLICATION IF EXISTS ...` always succeeds. -/

/-- The source-side state the replication resources and the read-only flag
live in. -/
structure SourceEnv where
  slots : List String
  pubs : List String
  defaultTxnReadOnly : Bool
deriving DecidableEq

/-- Embeds `SlotManager.SlotExists`: probe of `pg_replication_slots`. -/
def slotExists (env : SourceEnv) (name : String) : Bool :=
  env.slots.contains name

/-- Embeds `PublicationManager.PublicationExists`: probe of
`pg_publication`. -/
def publicationExists (env : SourceEnv) (name : String) : Bool :=
  env.pubs.contains name

/-- The slot name generated in `IncSyncState.Execute`:
`fmt.Sprintf("dts_slot_%s", task.ID)`. -/
def dtsSlotName (taskID : String) : String := "dts_slot_" ++ taskID

/-- The publication name generated in `IncSyncState.Execute`:
`fmt.Sprintf("dts_pub_%s", task.ID)`. -/
def dtsPubName (taskID : String) : String := "dts_pub_" ++ taskID

/-- Embeds `SlotManager.CreateSlot`: issues
`SELECT pg_create_logical_replication_slot(?, ?)`, which PostgreSQL rejects
when the slot already exists. -/
def createSlot (env : SourceEnv) (name : String) : Except String SourceEnv :=
  if env.slots.contains name then
    .error ("failed to create replication slot: slot " ++ name ++ " already exists")
  else
    .ok { env with slots := env.slots ++ [name] }

/-- Embeds `SlotManager.DropSlot`: issues
`SELECT pg_drop_replication_slot(?)` with no existence guard, which
PostgreSQL rejects when the slot does not exist. -/
def dropSlot (env : SourceEnv) (name : String) : Except String SourceEnv :=
  if env.slots.contains name then
    .ok { env with slots := env.slots.filter (fun s => !(s == name)) }
  else
    .error ("failed to drop replication slot: slot " ++ name ++ " does not exist")

/-- Embeds `PublicationManager.CreatePublication`: an empty table list is
rejected by the Go code itself; otherwise it issues
`CREATE PUBLICATION name FOR TABLE ...`, which PostgreSQL rejects when the
publication already exists. -/
def createPublication (env : SourceEnv) (name : String) (tables : List String) :
    Except String SourceEnv :=
  if tables = [] then .error "no tables specified"
  else if env.pubs.contains name then
    .error ("failed to create publication: publication " ++ name ++ " already exists")
  else
    .ok { env with pubs := env.pubs ++ [name] }

/-- Embeds `PublicationManager.DropPublication`: issues
`DROP PUBLICATION IF EXISTS name`, which succeeds whether or not the
publication exists. -/
def dropPublication (env : SourceEnv) (name : String) : Except String SourceEnv :=
  .ok { env with pubs := env.pubs.filter (fun s => !(s == name)) }

/-- Embeds the slot block of `IncSyncState.Execute`
(`internal/state/inc_sync.go` lines 66-76): `SlotExists`, then `CreateSlot`
only when absent. -/
def ensureSlot (env : SourceEnv) (name : String) : Except String SourceEnv :=
  if slotExists env name then .ok env else createSlot env name

/-- Embeds the publication block of `IncSyncState.Execute`
(`internal/state/inc_sync.go` lines 78-95): `PublicationExists`, then
`CreatePublication` with the `public.`-qualified table names only when
absent. -/
def ensurePublication (env : SourceEnv) (name : String) (tables : List String) :
    Except String SourceEnv :=
  if publicationExists env name then .ok env
  else createPublication env name (tables.map (fun t => "public." ++ t))

/-! ## Task runtime: connection registry and task manager

From `MigrationTask` in `src/unnamed/part_019` and `TaskManager` in
`internal/service/task_manager.go`. -/

/-- A value in the task's `Connections` map. `gormDB (.error e)` is a
handle whose `DB()` accessor fails, `gormDB (.ok (some e))` one whose
`Close()` fails, `gormDB (.ok none)` one that closes cleanly; `otherKind`
is a map entry of an unknown dynamic type, which the close loop skips. -/
inductive ConnHandle where
  | gormDB (closeOutcome : Except String (Option String))
  | otherKind

/-- The runtime fields of `model.MigrationTask` that the claims mention:
the id, the persisted state string and the per-task connection registry
keyed by `host:port:dbname`. -/
structure MigrationTask where
  id : String
  state : String
  connections : List (String × ConnHandle)

/-- The error strings collected by the loop inside
`MigrationTask.CloseAllConnections` (`src/unnamed/part_019`). -/
def closeConnErrors : List (String × ConnHandle) → List String
  | [] => []
  | (key, c) :: rest =>
    match c with
    | .gormDB (.error e) =>
        ("failed to get sql.DB from gorm.DB for " ++ key ++ ": " ++ e)
          :: closeConnErrors rest
    | .gormDB (.ok (some e)) =>
        ("failed to close gorm.DB connection " ++ key ++ ": " ++ e)
          :: closeConnErrors rest
    | .gormDB (.ok none) => closeConnErrors rest
    | .otherKind => closeConnErrors rest

/-- Embeds `MigrationTask.CloseAllConnections`: every handle is closed,
errors are collected, and the map is reset to empty unconditionally before
the error (if any) is returned. -/
def closeAllConnections (t : MigrationTask) : MigrationTask × Except String Unit :=
  let errs := closeConnErrors t.connections
  ({ t with connections := [] },
   if errs = [] then .ok ()
   else .error ("errors closing connections: " ++ String.intercalate "; " errs))

/-- The task manager's live-task map (`internal/service/task_manager.go`). -/
structure TaskManager where
  tasks : List (String × MigrationTask)

/-- Lookup in the live-task map, as `TaskManager.GetTask` does. -/
def lookupTask (tm : TaskManager) (id : String) : Option MigrationTask :=
  (tm.tasks.find? (fun p => p.1 == id)).map (fun p => p.2)

/-- Embeds `TaskManager.RemoveTask`: a missing id is a no-op returning nil;
otherwise the task's connections are closed and the entry is deleted even
when closing fails, with the close error returned. -/
def removeTask (tm : TaskManager) (id : String) : TaskManager × Except String Unit :=
  match tm.tasks.find? (fun p => p.1 == id) with
  | none => (tm, .ok ())
  | some p =>
    let closed := closeAllConnections p.2
    (⟨tm.tasks.filter (fun q => !(q.1 == id))⟩, closed.2)

/-! ## Terminal stage execution

From `internal/state/completed.go`, `internal/state/failed.go` and
`internal/state/finalizing.go`. Each `Execute` is modelled as its effect on
the task's runtime registry and on the source server's `SourceEnv`. -/

/-- Embeds `CompletedState.Execute`: it only calls
`task.CloseAllConnections()` (ignoring its error). The comment block in the
source lists dropping the replication resources and restoring writability
as steps 1 and 2, but no code performs them, so the source server's state
is untouched. -/
def completedExecute (t : MigrationTask) (env : SourceEnv) :
    MigrationTask × SourceEnv :=
  ((closeAllConnections t).1, env)

/-- Embeds `FailedState.Execute`: identical body to the completed state,
it only closes the task's connections. -/
def failedExecute (t : MigrationTask) (env : SourceEnv) :
    MigrationTask × SourceEnv :=
  ((closeAllConnections t).1, env)

/-- Embeds `FinalizingState.Execute`: it calls
`SourceRepository.RestoreWritePermissions`, which issues
`ALTER DATABASE current_database() RESET default_transaction_read_only`;
the slot and publication cleanup is an unexecuted TODO in the source. -/
def finalizingExecute (t : MigrationTask) (env : SourceEnv) :
    MigrationTask × SourceEnv :=
  (t, { env with defaultTxnReadOnly := false })

/-! ## The validating stage's retry loop

From the retry-loop version of `ValidatingState.Execute`
(`internal/state/validating.go` lines 55-119). Row counts come from
`GetTableCount` round-trips; the oracle gives, per attempt and per queried
table name, the count or the query error. -/

/-- Outcomes of the `GetTableCount` calls: `source i t` is the source-side
count of table `t` on attempt `i`, `target i t` the target-side count of
the queried (suffixed) table name. -/
structure CountOracle where
  source : Nat → String → Except String Int
  target : Nat → String → Except String Int

/-- `maxRetries := 10` in `ValidatingState.Execute`. -/
def maxRetries : Nat := 10

/-- `retryInterval := 5 * time.Second` in `ValidatingState.Execute`. -/
def retryIntervalSeconds : Nat := 5

/-- The error returned when the loop exhausts:
`fmt.Errorf("validation failed: ... after %d attempts", maxRetries)`. -/
def validationFailedMsg : String :=
  "validation failed: source and target data do not match after 10 attempts"

/-- One attempt's inner loop over the tables: fetch both counts (a query
error aborts the stage), and on the first mismatch set `allMatch = false`
and break. Returns the final `allMatch`. -/
def scanTables (o : CountOracle) (suffix : String) (attempt : Nat) :
    List String → Except String Bool
  | [] => .ok true
  | t :: ts =>
    match o.source attempt t with
    | .error e => .error ("failed to get source table count for " ++ t ++ ": " ++ e)
    | .ok sc =>
      match o.target attempt (t ++ suffix) with
      | .error e => .error ("failed to get target table count for " ++ t ++ ": " ++ e)
      | .ok tc =>
        if sc ≠ tc then .ok false
        else scanTables o suffix attempt ts

/-- The attempt loop of `ValidatingState.Execute`, with the remaining
attempt budget as fuel. The second component counts the 5-second sleeps
taken (`attempt < maxRetries-1` guards the sleep, so the last attempt is
not followed by one). -/
def validateAux (o : CountOracle) (suffix : String) (tables : List String) :
    Nat → Nat → Except String Unit × Nat
  | _, 0 => (.error validationFailedMsg, 0)
  | attempt, r + 1 =>
    match scanTables o suffix attempt tables with
    | .error e => (.error e, 0)
    | .ok true => (.ok (), 0)
    | .ok false =>
      if r = 0 then (.error validationFailedMsg, 0)
      else
        let res := validateAux o suffix tables (attempt + 1) r
        (res.1, res.2 + 1)

/-- Embeds `ValidatingState.Execute`: run the attempt loop from attempt 0
with a budget of `maxRetries`. -/
def validatingExecute (o : CountOracle) (suffix : String) (tables : List String) :
    Except String Unit × Nat :=
  validateAux o suffix tables 0 maxRetries

/-- All covered tables have equal source and target counts on attempt `i`
(the target is queried under the suffixed name). -/
def countsMatchAt (o : CountOracle) (suffix : String) (tables : List String)
    (i : Nat) : Prop :=
  ∀ t ∈ tables, o.source i t = o.target i (t ++ suffix)

/-- The oracle's queries never fail (no connection errors during the
validating stage). -/
def okOracle (o : CountOracle) : Prop :=
  ∀ i t, (∃ c, o.source i t = .ok c) ∧ (∃ c, o.target i t = .ok c)

/-- An oracle whose every count is 1 (used to instantiate the retry-loop
theorem at a concrete input). -/
def constOracle : CountOracle :=
  ⟨fun _ _ => .ok 1, fun _ _ => .ok 1⟩

/-! ## WAL pipeline: pglogrepl inputs, decoder, handler, subscriber

The decoder (`internal/wal/decoder.go`) consumes messages already parsed
by the external `pglogrepl` library; `PgLogicalMsg` models those parsed
messages. In a pgoutput tuple, every cell carries a tag byte
`'n' = 110` (NULL), `'t' = 116` (text) or `'u' = 117` (unchanged TOAST),
which `pglogrepl` exposes as the cell's `DataType` field. -/

/-- A `pglogrepl.TupleDataColumn`: the tag byte, the declared length and
the raw bytes. -/
structure PgTupleCell where
  dataType : Nat
  length : Nat
  data : List Nat
deriving DecidableEq

/-- A `pglogrepl.TupleData`. -/
structure PgTuple where
  columns : List PgTupleCell
deriving DecidableEq

/-- A `pglogrepl.RelationMessageColumn`. -/
structure PgRelColumn where
  flags : Nat
  name : String
  dataTypeOID : Nat
  typeModifier : Int
deriving DecidableEq

/-- A parsed `pglogrepl.Message`, the input of `Decoder.Decode`.
`unsupported` stands for any message type outside the decoder's switch. -/
inductive PgLogicalMsg where
  | relation (relationID : Nat) (ns relationName : String) (replicaIdentity : Nat)
      (columns : List PgRelColumn)
  | insert (relationID : Nat) (tuple : Option PgTuple)
  | update (relationID : Nat) (oldTuple newTuple : Option PgTuple)
  | delete (relationID : Nat) (oldTuple : Option PgTuple)
  | truncate (relationIDs : List Nat)
  | begin (finalLSN : String) (xid : Nat)
  | commit (flags : Nat) (commitLSN transactionEndLSN : String)
  | unsupported
deriving DecidableEq

/-- A `wal.Column` (`internal/wal/message.go`). -/
structure WalColumn where
  flags : Nat
  name : String
  dataTypeOID : Nat
  typeModifier : Int
deriving DecidableEq

/-- A `wal.TupleColumn` (`internal/wal/message.go`). Its doc comment in
the source reads: Kind follows pgoutput, `'n'` = null, `'t'` = text,
`'u'` = unchanged toast. -/
structure WalTupleColumn where
  kind : Nat
  dataType : Nat
  length : Nat
  data : List Nat
deriving DecidableEq

/-- A `wal.Tuple`. -/
structure WalTuple where
  columns : List WalTupleColumn
deriving DecidableEq

/-- A `wal.Message` (`internal/wal/message.go`), the decoder's output and
the handler's input. -/
inductive WalMessage where
  | relation (relationID : Nat) (ns relationName replicaIdentity : String)
      (columns : List WalColumn)
  | insert (relationID : Nat) (tuple : Option WalTuple)
  | update (relationID : Nat) (oldTuple newTuple : Option WalTuple)
  | delete (relationID : Nat) (oldTuple : Option WalTuple)
  | truncate (relationIDs : List Nat)
  | begin (finalLSN : String) (xid : Nat)
  | commit (flags : Nat) (lsn transactionEndLSN : String)
deriving DecidableEq

/-- Go's `string(b)` on a single byte. -/
def byteToString (b : Nat) : String := String.mk [Char.ofNat b]

/-- Go's `string(bytes)` on a cell's data (faithful for ASCII payloads;
a nil slice gives the empty string). -/
def bytesToString (bs : List Nat) : String := String.mk (bs.map Char.ofNat)

/-- Embeds `convertColumns` (`internal/wal/decoder.go`). -/
def convertColumns (cols : List PgRelColumn) : List WalColumn :=
  cols.map (fun c => ⟨c.flags, c.name, c.dataTypeOID, c.typeModifier⟩)

/-- Embeds `convertTuple` (`internal/wal/decoder.go` lines 93-114): each
cell is copied with `Kind: 0` — the pgoutput tag, available in the cell's
`DataType` field, is not transferred into `Kind`. -/
def convertTuple : Option PgTuple → Option WalTuple
  | none => none
  | some t => some ⟨t.columns.map (fun c => ⟨0, c.dataType, c.length, c.data⟩)⟩

/-- Embeds `Decoder.Decode` (`internal/wal/decoder.go`): a total mapping
from parsed pglogrepl messages to `wal.Message` variants, failing only on
an unsupported message type. Timestamps, which no claim mentions, are
dropped. -/
def decode : PgLogicalMsg → Except String WalMessage
  | .relation id ns name ri cols =>
      .ok (.relation id ns name (byteToString ri) (convertColumns cols))
  | .insert id t => .ok (.insert id (convertTuple t))
  | .update id ot nt => .ok (.update id (convertTuple ot) (convertTuple nt))
  | .delete id ot => .ok (.delete id (convertTuple ot))
  | .truncate ids => .ok (.truncate ids)
  | .begin l x => .ok (.begin l x)
  | .commit f l te => .ok (.commit f l te)
  | .unsupported => .error "unknown message type"

/-- A `wal.TableMapping` (`internal/wal/handler.go`). -/
structure TableMapping where
  schema : String
  tableName : String
  targetName : String
  columns : List String
deriving DecidableEq

/-- Lookup in the handler's `relationID → TableMapping` Go map. -/
def mapLookup (m : List (Nat × TableMapping)) (id : Nat) : Option TableMapping :=
  (m.find? (fun p => p.1 == id)).map (fun p => p.2)

/-- Insert-or-overwrite in the handler's Go map. -/
def mapInsert (m : List (Nat × TableMapping)) (id : Nat) (v : TableMapping) :
    List (Nat × TableMapping) :=
  if m.any (fun p => p.1 == id) then
    m.map (fun p => if p.1 == id then (id, v) else p)
  else m ++ [(id, v)]

/-- The handler's state: the `tableMapping` map of `wal.Handler`. -/
structure HandlerState where
  tableMapping : List (Nat × TableMapping)

/-- Insert-or-overwrite in the `map[string]interface` of column values
built by `tupleToMap`; `none` models a nil (NULL) value. -/
def valuesInsert (m : List (String × Option String)) (k : String)
    (v : Option String) : List (String × Option String) :=
  if m.any (fun p => p.1 == k) then
    m.map (fun p => if p.1 == k then (k, v) else p)
  else m ++ [(k, v)]

/-- The loop body of `tupleToMap` (`internal/wal/handler.go` lines
130-153): walk the tuple cells in step with the relation's column names
(breaking when the names run out), dispatching on the cell's `Kind` byte:
`'n'` (110) maps the column to nil, `'t'` (116) to the text bytes, `'u'`
(117) is skipped, and any other kind falls through to the text branch. -/
def tupleToMapAux (acc : List (String × Option String)) :
    List String → List WalTupleColumn → List (String × Option String)
  | _, [] => acc
  | [], _ :: _ => acc
  | name :: names, c :: cs =>
    if c.kind = 110 then
      tupleToMapAux (valuesInsert acc name none) names cs
    else if c.kind = 116 then
      tupleToMapAux (valuesInsert acc name (some (bytesToString c.data))) names cs
    else if c.kind = 117 then
      tupleToMapAux acc names cs
    else
      tupleToMapAux (valuesInsert acc name (some (bytesToString c.data))) names cs

/-- Embeds `tupleToMap`: a nil tuple gives an empty map. -/
def tupleToMap (columns : List String) (tuple : Option WalTuple) :
    List (String × Option String) :=
  match tuple with
  | none => []
  | some t => tupleToMapAux [] columns t.columns

/-- Embeds `Handler.Handle` (`internal/wal/handler.go`): a `Relation`
message records (or refreshes) the table mapping; DML messages look the
relation up (unknown ids are errors) and build their value maps with
`tupleToMap` (the source computes the maps and leaves the database apply
to upper-layer integration); `Begin`, `Commit` and `Truncate` are
accepted without effect. -/
def handle (h : HandlerState) : WalMessage → Except String HandlerState
  | .relation id ns name _ cols =>
    let colNames := cols.map (fun c => c.name)
    match mapLookup h.tableMapping id with
    | some m => .ok ⟨mapInsert h.tableMapping id { m with columns := colNames }⟩
    | none => .ok ⟨mapInsert h.tableMapping id ⟨ns, name, name, colNames⟩⟩
  | .insert id _ =>
    match mapLookup h.tableMapping id with
    | none => .error ("unknown relation ID: " ++ toString id)
    | some _ => .ok h
  | .update id _ _ =>
    match mapLookup h.tableMapping id with
    | none => .error ("unknown relation ID: " ++ toString id)
    | some _ => .ok h
  | .delete id _ =>
    match mapLookup h.tableMapping id with
    | none => .error ("unknown relation ID: " ++ toString id)
    | some _ => .ok h
  | .truncate _ => .ok h
  | .begin _ _ => .ok h
  | .commit _ _ _ => .ok h

/-- A parsed `pglogrepl.PrimaryKeepaliveMessage` (only the field the
subscriber reads). -/
structure PrimaryKeepalive where
  serverWALEnd : Nat
deriving DecidableEq

/-- A parsed `pglogrepl.XLogData`: the starting WAL position, the length
of the payload, and the outcome of `pglogrepl.Parse` on the payload. -/
structure XLogEvent where
  walStart : Nat
  walDataLen : Nat
  parsed : Except String PgLogicalMsg

/-- A CopyData message as the subscriber's switch sees it: dispatched on
the first byte into keepalive or XLogData, each with the outcome of the
corresponding external parse call. -/
inductive InboundMsg where
  | keepalive (parsed : Except String PrimaryKeepalive)
  | xlogData (parsed : Except String XLogEvent)

/-- Observable actions of `handleCopyData`, in emission order: a message
applied by the handler, and a standby status update sent to the source
with the given `WALWritePosition`. -/
inductive SubEvent where
  | applied (msg : WalMessage)
  | standbyStatusSent (writePosition : Nat)
deriving DecidableEq

/-- Embeds `Subscriber.handleCopyData` (`src/unnamed/part_026` lines
98-159): a keepalive with `ServerWALEnd > 0` is acknowledged immediately
with that position; an XLogData message is parsed, decoded and handled,
and only when all three succeed is a standby status update sent, carrying
`WALStart + len(WALData)`; any failure returns the error with no status
update sent. -/
def handleCopyData (h : HandlerState) :
    InboundMsg → List SubEvent × HandlerState × Except String Unit
  | .keepalive (.error e) => ([], h, .error ("failed to parse keepalive: " ++ e))
  | .keepalive (.ok pkm) =>
    if pkm.serverWALEnd > 0 then
      ([.standbyStatusSent pkm.serverWALEnd], h, .ok ())
    else ([], h, .ok ())
  | .xlogData (.error e) => ([], h, .error ("failed to parse xlog data: " ++ e))
  | .xlogData (.ok xld) =>
    match xld.parsed with
    | .error e => ([], h, .error ("failed to parse logical message: " ++ e))
    | .ok lm =>
      match decode lm with
      | .error e => ([], h, .error ("failed to decode message: " ++ e))
      | .ok dm =>
        match handle h dm with
        | .error e => ([], h, .error ("failed to handle message: " ++ e))
        | .ok h2 =>
          ([.applied dm, .standbyStatusSent (xld.walStart + xld.walDataLen)],
           h2, .ok ())

/-- The pglogrepl `Relation` message of the concrete pipeline run used to
exhibit the tag-dropping bug: relation 1 is `public.t` with columns
`a` and `b`. -/
def tagRelationMsg : PgLogicalMsg :=
  .relation 1 "public" "t" 100 [⟨0, "a", 23, 0⟩, ⟨0, "b", 25, 0⟩]

/-- The pglogrepl `Update` message of that run: the new tuple's first cell
is tagged `'n'` (110, NULL) and its second `'u'` (117, unchanged TOAST),
both with empty data. -/
def tagUpdateMsg : PgLogicalMsg :=
  .update 1 none (some ⟨[⟨110, 0, []⟩, ⟨117, 0, []⟩]⟩)

/-- A concrete keepalive used to instantiate the acknowledgement theorem. -/
def kaProbe : PrimaryKeepalive := ⟨42⟩

/-- A concrete XLogData event (a parsed `Begin` message of length 3 at
position 5) used to instantiate the acknowledgement theorem. -/
def xlogProbe : XLogEvent := ⟨5, 3, .ok (.begin "0/16B3748" 7)⟩

/-! # Theorems -/

/-! ## C8 — progress anchors -/

/-- C8, counterexample: the claim's anchor table says the table-creation
stage (`create_tables`, spelled `creating_tables` in the code) is anchored
at 30 and that no anchor outside `{5,15,30,60,75,80,95,100}` is ever
written, but `progressForState` maps `creating_tables` to 20. -/
theorem progress_anchor_claim_false :
    progressForState "creating_tables" = 20 ∧
    (20 : Int) ∉ ([5, 15, 30, 60, 75, 80, 95, 100] : List Int) := by
  exact ⟨rfl, by decide⟩

/-- C8, amended: the anchors `progressForState` actually assigns are
init = 5, creating_tables = 20, migrating_data = 60, syncing_wal = 75,
stopping_writes = 85, validating = 95, finalizing = 99, completed = 100,
and every other state (including `paused` and `failed`) gets 0; no value
outside `{0,5,20,60,75,85,95,99,100}` is ever produced. -/
theorem progress_anchor_values :
    progressForState "init" = 5 ∧
    progressForState "creating_tables" = 20 ∧
    progressForState "migrating_data" = 60 ∧
    progressForState "syncing_wal" = 75 ∧
    progressForState "stopping_writes" = 85 ∧
    progressForState "validating" = 95 ∧
    progressForState "finalizing" = 99 ∧
    progressForState "completed" = 100 ∧
    progressForState "paused" = 0 ∧
    progressForState "failed" = 0 ∧
    ∀ s, progressForState s ∈ ([0, 5, 20, 60, 75, 85, 95, 99, 100] : List Int) := by
  refine ⟨rfl, rfl, rfl, rfl, rfl, rfl, rfl, rfl, rfl, rfl, ?_⟩
  intro s
  unfold progressForState
  split_ifs <;> decide

/-! ## C9 — status stage mapping -/

/-- C9, counterexample: the claim maps the internal state `init` to stage
`none`, but `mapStateToStage` sends `init` to `syncing`. -/
theorem stage_mapping_claim_false :
    mapStateToStage "init" = "syncing" ∧ mapStateToStage "init" ≠ "none" := by
  exact ⟨rfl, by decide⟩

/-- C9, amended: the actual mapping is `init`, `creating_tables`,
`migrating_data` and `syncing_wal` to `syncing`; `stopping_writes`,
`validating` and `finalizing` to `switching`; `completed` to `finished`;
`failed` to `none`; `paused` to `waiting`; and every other string
(there is no `waiting` or `deleted` state in this vocabulary) to `none`. -/
theorem mapStateToStage_rules :
    mapStateToStage "init" = "syncing" ∧
    mapStateToStage "creating_tables" = "syncing" ∧
    mapStateToStage "migrating_data" = "syncing" ∧
    mapStateToStage "syncing_wal" = "syncing" ∧
    mapStateToStage "stopping_writes" = "switching" ∧
    mapStateToStage "validating" = "switching" ∧
    mapStateToStage "finalizing" = "switching" ∧
    mapStateToStage "completed" = "finished" ∧
    mapStateToStage "failed" = "none" ∧
    mapStateToStage "paused" = "waiting" ∧
    (∀ s, s ≠ "init" → s ≠ "creating_tables" → s ≠ "migrating_data" →
      s ≠ "syncing_wal" → s ≠ "stopping_writes" → s ≠ "validating" →
      s ≠ "finalizing" → s ≠ "completed" → s ≠ "failed" → s ≠ "paused" →
      mapStateToStage s = "none") := by
  refine ⟨rfl, rfl, rfl, rfl, rfl, rfl, rfl, rfl, rfl, rfl, ?_⟩
  intro s h1 h2 h3 h4 h5 h6 h7 h8 h9 h10
  simp [mapStateToStage, h1, h2, h3, h4, h5, h6, h7, h8, h9, h10]

/-- Instantiation of `mapStateToStage_rules` at the concrete state string
`deleted`, which falls into the default branch. -/
theorem mapStateToStage_rules_witness : mapStateToStage "deleted" = "none" :=
  mapStateToStage_rules.2.2.2.2.2.2.2.2.2.2 "deleted" (by decide) (by decide)
    (by decide) (by decide) (by decide) (by decide) (by decide) (by decide)
    (by decide) (by decide)

/-! ## C5 — switchover legality -/

/-- C5, counterexample: the claim says switchover is legal exactly in the
`waiting` state and advances the task to `validating`; on a task whose
stored state is `waiting` the handler answers HTTP 400 and leaves the
state unchanged (in particular it does not become `validating`). -/
theorem switch_from_waiting_rejected :
    (switchTask (some "waiting")).1.httpStatus = 400 ∧
    (switchTask (some "waiting")).2 = some "waiting" ∧
    (switchTask (some "waiting")).2 ≠ some "validating" := by
  exact ⟨rfl, rfl, by decide⟩

/-- C5, amended: an unknown task id gets 404; switchover is legal only
from `syncing_wal` (the incremental-sync state), which it advances to
`stopping_writes` with HTTP 200; a task already in `stopping_writes`,
`validating` or `finalizing` gets HTTP 200 ("already in progress") with no
state change; any other state gets HTTP 400, no state change, and an error
message that mentions the task's current state. -/
theorem switchTask_state_rules (st : String) :
    (switchTask none).1.httpStatus = 404 ∧
    (st = "syncing_wal" →
      switchTask (some st) =
        (⟨200, "OK", "Switchover triggered successfully"⟩, some "stopping_writes")) ∧
    (st = "stopping_writes" ∨ st = "validating" ∨ st = "finalizing" →
      switchTask (some st) =
        (⟨200, "OK", "Switchover is already in progress"⟩, some st)) ∧
    (st ≠ "syncing_wal" → st ≠ "stopping_writes" → st ≠ "validating" →
      st ≠ "finalizing" →
      (switchTask (some st)).1.httpStatus = 400 ∧
      (switchTask (some st)).2 = some st ∧
      mentions (switchTask (some st)).1.message st) := by
  refine ⟨rfl, ?_, ?_, ?_⟩
  · intro h; subst h; rfl
  · intro h
    rcases h with h | h | h <;> subst h <;> rfl
  · intro h1 h2 h3 h4
    have hcond : ¬ (st = "stopping_writes" ∨ st = "validating" ∨ st = "finalizing") := by
      simp [h2, h3, h4]
    simp only [switchTask, if_neg h1, if_neg hcond]
    refine ⟨trivial, trivial, ?_⟩
    exact ⟨("Task is not in a state that allows switchover. Current state: ").data,
      [], by simp⟩

/-- Instantiation of `switchTask_state_rules` at the concrete state
`init`: HTTP 400, unchanged state, and a message mentioning `init`. -/
theorem switchTask_state_rules_witness :
    (switchTask (some "init")).1.httpStatus = 400 ∧
    (switchTask (some "init")).2 = some "init" ∧
    mentions (switchTask (some "init")).1.message "init" :=
  (switchTask_state_rules "init").2.2.2 (by decide) (by decide) (by decide)
    (by decide)

/-! ## C3 — progress monotonicity -/

/-- C3, counterexample: the claim says `update_progress` silently drops a
write that would decrease the persisted value; writing 20 over a persisted
75 in fact overwrites it (the result is 20, not the previous 75). -/
theorem updateProgress_overwrites_lower_value :
    (updateProgress (updateProgress ⟨"syncing_wal", 0⟩ 75) 20).progress = 20 ∧
    (updateProgress (updateProgress ⟨"syncing_wal", 0⟩ 75) 20).progress ≠
      (updateProgress ⟨"syncing_wal", 0⟩ 75).progress := by
  exact ⟨rfl, by decide⟩

/-- C3, amended: `UpdateProgress` persists its argument unconditionally —
it enforces nothing; progress is nonetheless non-decreasing within a
state-machine run because the anchor assigned to a state never exceeds
the anchor of its successor state along every machine transition. -/
theorem progress_monotone_via_anchor_chain :
    (∀ r p, (updateProgress r p).progress = p) ∧
    (∀ s s', nextState s = some s' →
      progressForState s ≤ progressForState s') := by
  refine ⟨fun r p => rfl, ?_⟩
  intro s s' h
  unfold nextState at h
  split_ifs at h with h1 h2 h3 h4 h5 h6 h7 <;>
    injection h with he <;> subst he <;> subst ‹s = _› <;> decide

/-- Instantiation of `progress_monotone_via_anchor_chain` at the concrete
transition `init → creating_tables` and a concrete overwrite. -/
theorem progress_monotone_via_anchor_chain_witness :
    (updateProgress ⟨"init", 5⟩ 20).progress = 20 ∧
    progressForState "init" ≤ progressForState "creating_tables" :=
  ⟨progress_monotone_via_anchor_chain.1 ⟨"init", 5⟩ 20,
   progress_monotone_via_anchor_chain.2 "init" "creating_tables" (by decide)⟩

/-! ## C6 — replication-resource idempotency -/

/-- C6, counterexample: the claim says both drop operations are idempotent
via `IF EXISTS`, so dropping an absent slot succeeds; `DropSlot` issues a
bare `SELECT pg_drop_replication_slot(?)` and dropping an absent slot is
an error (while `DropPublication`, which does use `IF EXISTS`, succeeds on
an absent publication). -/
theorem dropSlot_missing_slot_errors :
    dropSlot ⟨[], [], false⟩ "dts_slot_t1" =
      .error "failed to drop replication slot: slot dts_slot_t1 does not exist" ∧
    dropPublication ⟨[], [], false⟩ "dts_pub_t1" = .ok ⟨[], [], false⟩ := by
  exact ⟨rfl, rfl⟩

/-- C6, amended: the create operations are idempotent via the existence
probe (`ensureSlot`/`ensurePublication` leave an existing resource in
place and never fail with "already exists"), and `DropPublication` is
idempotent via `IF EXISTS`; `DropSlot` however has no existence guard and
fails on a slot that does not exist. -/
theorem replication_resource_idempotency (env : SourceEnv) (name : String)
    (tables : List String) :
    (slotExists env name = true → ensureSlot env name = .ok env) ∧
    (∃ env', ensureSlot env name = .ok env') ∧
    (publicationExists env name = true →
      ensurePublication env name tables = .ok env) ∧
    (dropPublication env name =
      .ok { env with pubs := env.pubs.filter (fun s => !(s == name)) }) ∧
    (env.slots.contains name = false →
      dropSlot env name = .error
        ("failed to drop replication slot: slot " ++ name ++ " does not exist")) := by
  refine ⟨?_, ?_, ?_, rfl, ?_⟩
  · intro h; simp [ensureSlot, h]
  · by_cases h : slotExists env name
    · exact ⟨env, by simp [ensureSlot, h]⟩
    · refine ⟨{ env with slots := env.slots ++ [name] }, ?_⟩
      have hm : ¬ name ∈ env.slots := by simpa [slotExists] using h
      simp [ensureSlot, slotExists, createSlot, hm]
  · intro h; simp [ensurePublication, h]
  · intro h
    have hm : ¬ name ∈ env.slots := by simpa using h
    simp [dropSlot, hm]

/-- Instantiation of `replication_resource_idempotency` at a source that
already has the slot and the publication: both ensure operations return
the state unchanged. -/
theorem replication_resource_idempotency_witness :
    ensureSlot ⟨["dts_slot_t1"], ["dts_pub_t1"], false⟩ "dts_slot_t1" =
      .ok ⟨["dts_slot_t1"], ["dts_pub_t1"], false⟩ ∧
    ensurePublication ⟨["dts_slot_t1"], ["dts_pub_t1"], false⟩ "dts_pub_t1" ["t"] =
      .ok ⟨["dts_slot_t1"], ["dts_pub_t1"], false⟩ :=
  ⟨(replication_resource_idempotency ⟨["dts_slot_t1"], ["dts_pub_t1"], false⟩
      "dts_slot_t1" ["t"]).1 rfl,
   (replication_resource_idempotency ⟨["dts_slot_t1"], ["dts_pub_t1"], false⟩
      "dts_pub_t1" ["t"]).2.2.1 rfl⟩

/-! ## C1 — terminal cleanup of replication resources -/

/-- C1: the claim says executing the completed (or failed) stage drops
`dts_slot_<task>` and `dts_pub_<task>`; in the source, `CompletedState`
and `FailedState` only close connections and `FinalizingState` only
resets `default_transaction_read_only`, so the source's slot and
publication sets are untouched by all three, and after finalizing-then-
completed a task's slot and publication still exist. The slot and
publication cleanup is an unexecuted TODO in the source. -/
theorem terminal_cleanup_leaves_replication_resources :
    (∀ t env, (completedExecute t env).2 = env) ∧
    (∀ t env, (failedExecute t env).2 = env) ∧
    (∀ t env, (finalizingExecute t env).2.slots = env.slots ∧
      (finalizingExecute t env).2.pubs = env.pubs) ∧
    (slotExists
        (completedExecute ⟨"t1", "completed", []⟩
          (finalizingExecute ⟨"t1", "finalizing", []⟩
            ⟨["dts_slot_t1"], ["dts_pub_t1"], true⟩).2).2
        (dtsSlotName "t1") = true ∧
     publicationExists
        (completedExecute ⟨"t1", "completed", []⟩
          (finalizingExecute ⟨"t1", "finalizing", []⟩
            ⟨["dts_slot_t1"], ["dts_pub_t1"], true⟩).2).2
        (dtsPubName "t1") = true) := by
  exact ⟨fun t env => rfl, fun t env => rfl, fun t env => ⟨rfl, rfl⟩,
    by decide, by decide⟩

/-! ## C10 — teardown empties the runtime registries -/

/-- After filtering out every pair whose key is `id`, a lookup for `id`
finds nothing. -/
theorem find_after_filter_none (l : List (String × MigrationTask)) (id : String) :
    (l.filter (fun q => !(q.1 == id))).find? (fun p => p.1 == id) = none := by
  induction l with
  | nil => rfl
  | cons a l ih =>
    by_cases h : a.1 = id
    · simp [List.filter_cons, h, ih]
    · have hb : (a.1 == id) = false := by simp [h]
      simp [List.filter_cons, hb, List.find?, ih]

/-- C10: `CloseAllConnections` resets the connection map to empty whether
or not closing produced errors, and `RemoveTask` always leaves the
live-task map without an entry for the id — including when a handle close
errors — while a missing id is a no-op returning nil. -/
theorem teardown_empties_registries :
    (∀ t, ((closeAllConnections t).1).connections = []) ∧
    (∀ tm id, lookupTask (removeTask tm id).1 id = none) ∧
    (∀ tm id, lookupTask tm id = none → removeTask tm id = (tm, .ok ())) := by
  refine ⟨fun t => rfl, ?_, ?_⟩
  · intro tm id
    unfold removeTask
    cases hf : tm.tasks.find? (fun p => p.1 == id) with
    | none => simpa [lookupTask] using hf
    | some p => simp [lookupTask, find_after_filter_none]
  · intro tm id h
    unfold removeTask
    cases hf : tm.tasks.find? (fun p => p.1 == id) with
    | none => rfl
    | some p =>
      exfalso
      unfold lookupTask at h
      rw [hf] at h
      simp at h

/-- Instantiation of `teardown_empties_registries`: a close whose handle
errors still empties the map, and removing an absent id from an empty
manager is a no-op. -/
theorem teardown_empties_registries_witness :
    ((closeAllConnections
        ⟨"t1", "completed", [("h:5432:db", .gormDB (.ok (some "broken")))]⟩).1).connections
      = [] ∧
    removeTask ⟨[]⟩ "t1" = (⟨[]⟩, .ok ()) :=
  ⟨teardown_empties_registries.1
      ⟨"t1", "completed", [("h:5432:db", .gormDB (.ok (some "broken")))]⟩,
   teardown_empties_registries.2.2 ⟨[]⟩ "t1" rfl⟩

/-! ## C2 — acknowledgement ordering -/

/-- C2: for an XLogData message, the standby status update carrying
`WALStart + len(WALData)` is emitted only after the handler has
successfully applied the decoded message (in the success trace the
`applied` event precedes the acknowledgement, and on any parse, decode or
handle failure nothing is emitted at all); a primary keepalive is
acknowledged with `ServerWALEnd` exactly when `ServerWALEnd > 0`. -/
theorem ack_follows_successful_apply (h : HandlerState) (x : XLogEvent)
    (pkm : PrimaryKeepalive) :
    (∀ lm dm h2, x.parsed = .ok lm → decode lm = .ok dm → handle h dm = .ok h2 →
      handleCopyData h (.xlogData (.ok x)) =
        ([.applied dm, .standbyStatusSent (x.walStart + x.walDataLen)], h2, .ok ())) ∧
    ((handleCopyData h (.xlogData (.ok x))).2.2 = .ok () ∨
      (handleCopyData h (.xlogData (.ok x))).1 = []) ∧
    (pkm.serverWALEnd > 0 →
      handleCopyData h (.keepalive (.ok pkm)) =
        ([.standbyStatusSent pkm.serverWALEnd], h, .ok ())) ∧
    (¬ pkm.serverWALEnd > 0 →
      handleCopyData h (.keepalive (.ok pkm)) = ([], h, .ok ())) := by
  refine ⟨?_, ?_, ?_, ?_⟩
  · intro lm dm h2 hp hd hh
    simp [handleCopyData, hp, hd, hh]
  · cases hp : x.parsed with
    | error e => right; simp [handleCopyData, hp]
    | ok lm =>
      cases hd : decode lm with
      | error e => right; simp [handleCopyData, hp, hd]
      | ok dm =>
        cases hh : handle h dm with
        | error e => right; simp [handleCopyData, hp, hd, hh]
        | ok h2 => left; simp [handleCopyData, hp, hd, hh]
  · intro hgt; simp [handleCopyData, hgt]
  · intro hle; simp [handleCopyData, hle]

/-- Instantiation of `ack_follows_successful_apply` at a concrete parsed
`Begin` message of length 3 at WAL position 5, and a keepalive whose
`ServerWALEnd` is 42. -/
theorem ack_follows_successful_apply_witness :
    handleCopyData ⟨[]⟩ (.xlogData (.ok xlogProbe)) =
      ([.applied (.begin "0/16B3748" 7), .standbyStatusSent 8], ⟨[]⟩, .ok ()) ∧
    handleCopyData ⟨[]⟩ (.keepalive (.ok kaProbe)) =
      ([.standbyStatusSent 42], ⟨[]⟩, .ok ()) :=
  ⟨(ack_follows_successful_apply ⟨[]⟩ xlogProbe kaProbe).1
      (.begin "0/16B3748" 7) (.begin "0/16B3748" 7) ⟨[]⟩ rfl rfl rfl,
   (ack_follows_successful_apply ⟨[]⟩ xlogProbe kaProbe).2.2.1 (by decide)⟩

/-! ## C4 — tuple tags through decoder and handler -/

/-- C4: the claim says the cell tags are preserved by the decoder and
drive the zip (`'n'` to NULL, `'t'` to text, `'u'` skipped for UPDATE);
in the source, `convertTuple` writes `Kind: 0` into every converted cell
(the tag stays behind in the `DataType` field), so every cell falls into
`tupleToMap`'s default (text) branch: decoding the concrete UPDATE whose
cells are tagged `'n'` (110) and `'u'` (117) yields cells of kind 0, and
the map the handler builds sends column `a` to the text value "" instead
of NULL and keeps column `b` instead of skipping it. -/
theorem decoder_drops_tuple_tags :
    (∀ t : PgTuple, ((convertTuple (some t)).getD ⟨[]⟩).columns.all
      (fun c => c.kind == 0) = true) ∧
    decode tagRelationMsg =
      .ok (.relation 1 "public" "t" (byteToString 100)
        [⟨0, "a", 23, 0⟩, ⟨0, "b", 25, 0⟩]) ∧
    handle ⟨[]⟩ (.relation 1 "public" "t" (byteToString 100)
        [⟨0, "a", 23, 0⟩, ⟨0, "b", 25, 0⟩]) =
      .ok ⟨[(1, ⟨"public", "t", "t", ["a", "b"]⟩)]⟩ ∧
    decode tagUpdateMsg =
      .ok (.update 1 none (some ⟨[⟨0, 110, 0, []⟩, ⟨0, 117, 0, []⟩]⟩)) ∧
    tupleToMap ["a", "b"] (some ⟨[⟨0, 110, 0, []⟩, ⟨0, 117, 0, []⟩]⟩) =
      [("a", some ""), ("b", some "")] := by
  refine ⟨?_, rfl, rfl, rfl, rfl⟩
  intro t
  simp [convertTuple, List.all_map, Function.comp]

/-! ## C7 — the validating retry loop -/

/-- Under an error-free oracle, one table scan returns (without error) a
Boolean that is true exactly when every covered table's counts match on
that attempt. -/
theorem scanTables_ok (o : CountOracle) (suffix : String) (hok : okOracle o)
    (i : Nat) (ts : List String) :
    ∃ b, scanTables o suffix i ts = .ok b ∧
      (b = true ↔ countsMatchAt o suffix ts i) := by
  induction ts with
  | nil => exact ⟨true, rfl, by simp [countsMatchAt]⟩
  | cons t ts ih =>
    obtain ⟨sc, hs⟩ := (hok i t).1
    obtain ⟨tc, ht⟩ := (hok i (t ++ suffix)).2
    obtain ⟨b, hb, hiff⟩ := ih
    by_cases he : sc = tc
    · refine ⟨b, ?_, ?_⟩
      · simp [scanTables, hs, ht, he, hb]
      · rw [hiff]
        constructor
        · intro hm u hu
          rcases List.mem_cons.mp hu with h1 | h2
          · subst h1; rw [hs, ht, he]
          · exact hm u h2
        · intro hm u hu
          exact hm u (List.mem_cons_of_mem _ hu)
    · refine ⟨false, ?_, ?_⟩
      · simp [scanTables, hs, ht, he]
      · constructor
        · intro hcontra
          exact absurd hcontra (by simp)
        · intro hm
          exfalso
          have hh := hm t (List.mem_cons_self t ts)
          rw [hs, ht] at hh
          exact he (by injection hh)

/-- Under an error-free oracle, when no attempt within the budget matches,
the loop returns the exhaustion error after budget − 1 sleeps. -/
theorem validateAux_none (o : CountOracle) (suffix : String)
    (tables : List String) (hok : okOracle o) :
    ∀ r a, (∀ k, k < r → ¬ countsMatchAt o suffix tables (a + k)) →
      validateAux o suffix tables a r = (.error validationFailedMsg, r - 1) := by
  intro r
  induction r with
  | zero => intro a _; rfl
  | succ r ih =>
    intro a hnm
    obtain ⟨b, hb, hiff⟩ := scanTables_ok o suffix hok a tables
    have hbf : b = false := by
      cases b
      · rfl
      · exact absurd (hiff.mp rfl) (by simpa using hnm 0 (Nat.succ_pos r))
    subst hbf
    rcases Nat.eq_zero_or_pos r with hr | hr
    · subst hr
      simp [validateAux, hb]
    · have hr0 : r ≠ 0 := Nat.pos_iff_ne_zero.mp hr
      have hrec : validateAux o suffix tables (a + 1) r =
          (.error validationFailedMsg, r - 1) := by
        apply ih
        intro k hk hm
        have he : a + 1 + k = a + (k + 1) := by omega
        rw [he] at hm
        exact hnm (k + 1) (Nat.succ_lt_succ hk) hm
      have hstep : validateAux o suffix tables a (r + 1) =
          ((validateAux o suffix tables (a + 1) r).1,
           (validateAux o suffix tables (a + 1) r).2 + 1) := by
        simp [validateAux, hb, hr0]
      rw [hstep, hrec]
      simp
      omega

/-- Under an error-free oracle, the loop succeeds at the first matching
attempt within the budget, after exactly one sleep per preceding failed
attempt. -/
theorem validateAux_ok (o : CountOracle) (suffix : String)
    (tables : List String) (hok : okOracle o) :
    ∀ r a i, i < r → countsMatchAt o suffix tables (a + i) →
      (∀ k, k < i → ¬ countsMatchAt o suffix tables (a + k)) →
      validateAux o suffix tables a r = (.ok (), i) := by
  intro r
  induction r with
  | zero => intro a i hi _ _; exact absurd hi (Nat.not_lt_zero i)
  | succ r ih =>
    intro a i hi hm hmin
    obtain ⟨b, hb, hiff⟩ := scanTables_ok o suffix hok a tables
    cases i with
    | zero =>
      have hbt : b = true := hiff.mpr (by simpa using hm)
      subst hbt
      simp [validateAux, hb]
    | succ i =>
      have hbf : b = false := by
        cases b
        · rfl
        · exact absurd (hiff.mp rfl) (by simpa using hmin 0 (Nat.succ_pos i))
      subst hbf
      have hr0 : r ≠ 0 := by omega
      have hrec : validateAux o suffix tables (a + 1) r = (.ok (), i) := by
        apply ih
        · omega
        · have he : a + 1 + i = a + (i + 1) := by omega
          rwa [he]
        · intro k hk hmk
          have he : a + 1 + k = a + (k + 1) := by omega
          rw [he] at hmk
          exact hmin (k + 1) (Nat.succ_lt_succ hk) hmk
      simp [validateAux, hb, hr0, hrec]

/-- C7: the validating stage's loop makes at most `maxRetries = 10`
attempts with `retryIntervalSeconds = 5` seconds between consecutive
attempts; with error-free count queries it succeeds exactly when some
attempt within the budget finds every covered table's source and target
counts equal — stopping at the first such attempt, after one sleep per
preceding failed attempt — and after all ten attempts complete without
every table matching it returns the exhaustion error. -/
theorem validating_retry_loop (o : CountOracle) (suffix : String)
    (tables : List String) (hok : okOracle o) :
    maxRetries = 10 ∧ retryIntervalSeconds = 5 ∧
    ((validatingExecute o suffix tables).1 = .ok () ↔
      ∃ i, i < maxRetries ∧ countsMatchAt o suffix tables i) ∧
    ((¬ ∃ i, i < maxRetries ∧ countsMatchAt o suffix tables i) →
      validatingExecute o suffix tables =
        (.error validationFailedMsg, maxRetries - 1)) ∧
    (∀ i, i < maxRetries → countsMatchAt o suffix tables i →
      (∀ k, k < i → ¬ countsMatchAt o suffix tables k) →
      validatingExecute o suffix tables = (.ok (), i)) := by
  have hnone : (¬ ∃ i, i < maxRetries ∧ countsMatchAt o suffix tables i) →
      validatingExecute o suffix tables =
        (.error validationFailedMsg, maxRetries - 1) := by
    intro hne
    unfold validatingExecute
    apply validateAux_none o suffix tables hok
    intro k hk hm
    exact hne ⟨k, hk, by simpa using hm⟩
  have hfirst : ∀ i, i < maxRetries → countsMatchAt o suffix tables i →
      (∀ k, k < i → ¬ countsMatchAt o suffix tables k) →
      validatingExecute o suffix tables = (.ok (), i) := by
    intro i hi hm hmin
    unfold validatingExecute
    exact validateAux_ok o suffix tables hok maxRetries 0 i hi
      (by simpa using hm) (fun k hk hmk => hmin k hk (by simpa using hmk))
  refine ⟨rfl, rfl, ?_, hnone, hfirst⟩
  constructor
  · intro hsucc
    by_contra hne
    rw [hnone hne] at hsucc
    exact absurd hsucc (by simp)
  · intro hex
    classical
    have hspec := Nat.find_spec hex
    have heq := hfirst (Nat.find hex) hspec.1 hspec.2 ?_
    · rw [heq]
    · intro k hk hmk
      have hklt : k < maxRetries := by
        have := hspec.1
        omega
      exact Nat.find_min hex hk ⟨hklt, hmk⟩

/-- Instantiation of `validating_retry_loop` at the constant oracle whose
every count is 1 and a single covered table: validation succeeds. -/
theorem validating_retry_loop_witness :
    (validatingExecute constOracle "" ["t"]).1 = .ok () :=
  (validating_retry_loop constOracle "" ["t"]
      (by intro i t; exact ⟨⟨1, rfl⟩, ⟨1, rfl⟩⟩)).2.2.1.mpr
    ⟨0, by decide, by intro u hu; rfl⟩

end DTS
